import Mathlib

set_option linter.unusedVariables false
set_option linter.unnecessarySimpa false

/-! Shallow embedding of the context-aware retrieval orchestrator in
`intelligent_retriever.py`: the Redis-backed session memory, the two
retrieval backends (PostgreSQL vector store and web search), the
LangGraph workflow with nodes `analyze_context`, `custom_retrieve`,
`web_retrieve`, `combine`, `update_memory`, and the caller-facing
`retrieve` operation. Numeric scores are modelled as rationals; the
external collaborators (LLM, database, embedding provider, search tool,
Redis) are modelled by an explicit environment describing their
behaviour during one run. -/

/-- Metadata values appearing in a document's metadata dictionary. -/
inductive MVal where
  | str (s : String)
  | num (q : ℚ)
  | nat (n : Nat)
  | boolean (b : Bool)
  deriving Repr, DecidableEq

/-- Numeric literal 0.5 of the source (the fallback confidence), written
in reduced form so that kernel evaluation of comparisons succeeds. -/
def q05 : ℚ := ⟨1, 2, by norm_num, by norm_num [Nat.Coprime]⟩

/-- Numeric literal 0.6 of the source (the routing confidence gate). -/
def q06 : ℚ := ⟨3, 5, by norm_num, by norm_num [Nat.Coprime]⟩

/-- Numeric literal 0.7 of the source (the default similarity threshold). -/
def q07 : ℚ := ⟨7, 10, by norm_num, by norm_num [Nat.Coprime]⟩

theorem q05_eq : q05 = 1/2 := by
  rw [q05, Rat.mk'_eq_divInt, Rat.divInt_eq_div]; norm_num

theorem q06_eq : q06 = 3/5 := by
  rw [q06, Rat.mk'_eq_divInt, Rat.divInt_eq_div]; norm_num

theorem q07_eq : q07 = 7/10 := by
  rw [q07, Rat.mk'_eq_divInt, Rat.divInt_eq_div]; norm_num

/-- Concrete score 0.4 in reduced form, used as a test input. -/
def q04 : ℚ := ⟨2, 5, by norm_num, by norm_num [Nat.Coprime]⟩

/-- Concrete score 0.9 in reduced form, used as a test input. -/
def q09 : ℚ := ⟨9, 10, by norm_num, by norm_num [Nat.Coprime]⟩

theorem q04_eq : q04 = 2/5 := by
  rw [q04, Rat.mk'_eq_divInt, Rat.divInt_eq_div]; norm_num

theorem q09_eq : q09 = 9/10 := by
  rw [q09, Rat.mk'_eq_divInt, Rat.divInt_eq_div]; norm_num

/-- Lookup in a metadata dictionary. First match wins; overriding entries
are stored in front, mirroring the Python dict merges in the source where
later splatted entries replace earlier keys. -/
def dget (d : List (String × MVal)) (k : String) : Option MVal :=
  (d.find? (fun p => p.1 == k)).map (fun p => p.2)

/-- LangChain document: page content plus a metadata dictionary. -/
structure Document where
  page_content : String
  metadata : List (String × MVal)
  deriving Repr, DecidableEq

/-- Value of the expression reading the similarity entry of a document's
metadata with numeric default 0, as used by the indexed backend's
threshold filter. -/
def simOf (d : Document) : ℚ :=
  match dget d.metadata "similarity" with
  | some (.num q) => q
  | _ => 0

/-- Value of the expression reading the source entry of a document's
metadata with default value the string unknown. -/
def sourceOf (d : Document) : String :=
  match dget d.metadata "source" with
  | some (.str s) => s
  | _ => "unknown"

/-- Fields of `RetrievalConfig` read by the orchestration logic (database
connection parameters are modelled by the environment's connection state
instead). Defaults follow the source. -/
structure RetrievalConfig where
  max_docs : Nat := 5
  similarity_threshold : ℚ := q07
  web_search_max_results : Nat := 3
  session_ttl : Nat := 1800
  max_session_messages : Nat := 10
  deriving Repr, DecidableEq

/-- Message stored per turn in the Redis session list by
`SessionMemory.add_message`. It is stored JSON-serialised; serialisation
round-trips, so the structured form is kept. -/
structure TurnMsg where
  timestamp : String
  query : String
  strategy_used : String
  document_count : Nat
  reasoning : String
  key_points : List String
  deriving Repr, DecidableEq

/-- Response dictionary handed to `add_message`, as built in
`_update_session_memory` (all four keys are always present there). -/
structure ResponseData where
  strategy_used : String
  document_count : Nat
  reasoning : String
  documents : List Document
  deriving Repr, DecidableEq

/-- `SessionMemory._extract_key_points`: up to three excerpts, each the
document's source followed by the first 200 characters of its content. -/
def extract_key_points (documents : List Document) : List String :=
  (documents.take 3).map (fun doc =>
    "From " ++ sourceOf doc ++ ": " ++ doc.page_content.take 200 ++ "...")

/-- Redis contents relevant to the session memory: a keyed list store,
key to list of messages, newest first. -/
abbrev SessionStore := List (String × List TurnMsg)

/-- `SessionMemory._get_session_key`. -/
def session_key (user_id : String) : String := "session:" ++ user_id

/-- LRANGE key 0 -1 on the store: the stored list, or the empty list when
the key is absent (deleted or expired). -/
def store_lookup (mem : SessionStore) (key : String) : List TurnMsg :=
  ((mem.find? (fun p => p.1 == key)).map (fun p => p.2)).getD []

/-- Overwrite a key's list in the store. -/
def store_set (mem : SessionStore) (key : String) (v : List TurnMsg) : SessionStore :=
  (key, v) :: mem.filter (fun p => !(p.1 == key))

/-- LTRIM key 0 (n-1): keeps the first n entries of the list. Redis reads
a negative stop index from the end of the list, so when n = 0 the stop
index -1 denotes the last element and the whole list is kept. -/
def ltrim_front (n : Nat) (l : List TurnMsg) : List TurnMsg :=
  if n = 0 then l else l.take n

/-- `SessionMemory.add_message`: LPUSH the new message onto the user's
session list, LTRIM it to `max_messages`, refresh the TTL. Expiry timing
is not modelled; `now` stands for the current timestamp string. -/
def add_message (mem : SessionStore) (max_messages : Nat) (now user_id query : String)
    (response : ResponseData) : SessionStore :=
  let key := session_key user_id
  let message : TurnMsg :=
    { timestamp := now
      query := query
      strategy_used := response.strategy_used
      document_count := response.document_count
      reasoning := response.reasoning
      key_points := extract_key_points response.documents }
  store_set mem key (ltrim_front max_messages (message :: store_lookup mem key))

/-- `SessionMemory.get_conversation_context`: LRANGE key 0 -1, parsed. -/
def get_conversation_context (mem : SessionStore) (user_id : String) : List TurnMsg :=
  store_lookup mem (session_key user_id)

/-- `SessionMemory.clear_session`: DEL key. -/
def clear_session (mem : SessionStore) (user_id : String) : SessionStore :=
  mem.filter (fun p => !(p.1 == session_key user_id))

/-- Row fetched by the similarity-search SQL for one query: content,
stored metadata, source, and the computed cosine similarity, listed in
the ORDER BY distance order of the query embedding. -/
structure Row where
  content : String
  extra : List (String × MVal)
  source : String
  similarity : ℚ
  deriving Repr, DecidableEq

/-- Outcome of the similarity-search SQL query against the database. -/
inductive DbQueryOutcome where
  | queryError
  | rows (rs : List Row)
  deriving Repr, DecidableEq

/-- Document built from one fetched row in
`PostgreSQLVectorStore.similarity_search`. Entries of the stored metadata
override the computed source and similarity pair, because the Python dict
merge splats the stored metadata last. -/
def rowToDocument (r : Row) : Document :=
  { page_content := r.content
    metadata := r.extra ++ [("source", .str r.source), ("similarity", .num r.similarity)] }

/-- `PostgreSQLVectorStore.similarity_search`: empty when the connection
is down or the query raises; otherwise the fetched rows (LIMIT k) mapped
to documents. -/
def similarity_search (connected : Bool) (outcome : DbQueryOutcome) (k : Nat) :
    List Document :=
  if !connected then []
  else
    match outcome with
    | .queryError => []
    | .rows rs => (rs.take k).map rowToDocument

/-- Outcome of the classifier chain invocation followed by JSON parsing
and field access, abstracted to the cases the except-handler in
`_analyze_with_context` distinguishes: the chain call itself throwing,
content that is not valid JSON, valid JSON missing a required decision
field, or a well-formed decision. -/
inductive LlmOutcome where
  | raises
  | invalidJson
  | jsonMissingKey
  | decision (strategy : String) (confidence : ℚ) (reasoning : String)
      (context_used : Option Bool)
  deriving Repr, DecidableEq

/-- Split a character list on every occurrence of the two-character
separator made of two newlines, greedily from the left, mirroring the
Python string split on a double newline used by the web backend. -/
def sdnChars : List Char → List (List Char)
  | [] => [[]]
  | '\n' :: '\n' :: rest => [] :: sdnChars rest
  | c :: rest =>
    match sdnChars rest with
    | [] => [[c]]
    | h :: t => (c :: h) :: t

/-- Python split of a string on a double newline. -/
def py_split_nn (s : String) : List String :=
  (sdnChars s.data).map (fun cs => String.mk cs)

/-- Whitespace characters removed by the Python strip method. -/
def py_space (c : Char) : Bool :=
  c == ' ' || c == '\n' || c == '\t' || c == '\r' || c == '\x0b' || c == '\x0c'

/-- Python strip: removes leading and trailing whitespace. -/
def py_strip (s : String) : String :=
  String.mk (((s.data.dropWhile py_space).reverse.dropWhile py_space).reverse)

/-- Outcome of the web search tool's run call. -/
inductive WebOutcome where
  | raises
  | result (s : String)
  deriving Repr, DecidableEq

/-- External world as observed by one orchestration run: the classifier
as a function of its two prompt inputs (current query, conversation
summary), the vector-store connection state and query outcome, the
embedding call outcome, the web search tool outcome, and whether the
Redis session store is reachable for reads and writes. -/
structure Env where
  llm : String → String → LlmOutcome
  dbConnected : Bool
  embedOk : Bool
  dbQuery : DbQueryOutcome
  web : WebOutcome
  readOk : Bool
  writeOk : Bool
  now : String

/-- Exceptions that can escape an orchestration run. -/
inductive RunErr where
  | llmRaised
  | keyError
  | routeError
  | embedError
  | storeError
  deriving Repr, DecidableEq

/-- `CustomDocumentRetriever._get_relevant_documents`: empty when the
vector-store connection is down; the embedding call is not wrapped in any
handler, so its failure propagates; then the internally fault-tolerant
similarity search, filtered by the similarity threshold. -/
def custom_get_relevant_documents (cfg : RetrievalConfig) (env : Env) (query : String) :
    Except RunErr (List Document) :=
  if !env.dbConnected then .ok []
  else if !env.embedOk then .error .embedError
  else
    let documents := similarity_search env.dbConnected env.dbQuery cfg.max_docs
    .ok (documents.filter (fun doc => decide (cfg.similarity_threshold ≤ simOf doc)))

/-- `WebSearchRetriever._get_relevant_documents`: every tool fault is
caught and yields the empty list; an empty result string yields the empty
list; otherwise the text is split on blank lines, capped at
`max_results`, and each non-blank chunk becomes a ranked document. -/
def web_get_relevant_documents (cfg : RetrievalConfig) (env : Env) (query : String) :
    Except RunErr (List Document) :=
  match env.web with
  | .raises => .ok []
  | .result s =>
    if s = "" then .ok []
    else
      let results := (py_split_nn s).take cfg.web_search_max_results
      .ok (results.enum.filterMap (fun p =>
        if py_strip p.2 = "" then none
        else some
          { page_content := p.2
            metadata := [("source", .str "web_search"), ("rank", .nat (p.1 + 1)),
                         ("query", .str query)] }))

/-- `RetrieverState`, the LangGraph state dictionary. -/
structure RetrieverState where
  query : String
  user_id : String
  documents : List Document
  search_type : String
  confidence : ℚ
  reasoning : String
  context_used : Bool
  conversation_history : List TurnMsg
  deriving Repr, DecidableEq

/-- `IntelligentRetriever._summarize_conversation`: a bounded textual
digest of the five most recent turns, each contributing a 100-character
query prefix, the strategy used, and the document count. -/
def summarize_conversation (history : List TurnMsg) : String :=
  if history = [] then "No previous conversation."
  else
    "Recent conversation topics:\n" ++
      String.join (((history.take 5).enum).map (fun p =>
        toString (p.1 + 1) ++ ". Query: " ++ p.2.query.take 100 ++ "...\n" ++
        "   Strategy: " ++ p.2.strategy_used ++ ", Documents: " ++
        toString p.2.document_count ++ "\n"))

/-- `IntelligentRetriever._analyze_with_context`: read the session history
(a Redis read that throws when the store is unreachable), summarize it,
invoke the classifier chain on the query and the summary, and parse the
decision. Only the JSON decode error is caught, producing the fallback
state; the chain call throwing or a missing decision field propagates. -/
def analyze_with_context (env : Env) (mem : SessionStore) (state : RetrieverState) :
    Except RunErr RetrieverState :=
  if !env.readOk then .error .storeError
  else
    let conversation_history := get_conversation_context mem state.user_id
    let context_summary := summarize_conversation conversation_history
    match env.llm state.query context_summary with
    | .raises => .error .llmRaised
    | .jsonMissingKey => .error .keyError
    | .invalidJson =>
        .ok { state with
          search_type := "custom"
          confidence := q05
          reasoning := "Default fallback to custom search"
          context_used := false
          conversation_history := [] }
    | .decision strategy confidence reasoning cu =>
        .ok { state with
          search_type := strategy
          confidence := confidence
          reasoning := reasoning
          context_used := cu.getD false
          conversation_history := conversation_history }

/-- `IntelligentRetriever._route_decision`: hedge to the dual path below
confidence 0.6, otherwise follow the classified strategy verbatim. -/
def route_decision (state : RetrieverState) : String :=
  if state.confidence < q06 then "both" else state.search_type

/-- `IntelligentRetriever._custom_retrieve` node. -/
def custom_retrieve (cfg : RetrievalConfig) (env : Env) (state : RetrieverState) :
    Except RunErr RetrieverState := do
  let documents ← custom_get_relevant_documents cfg env state.query
  .ok { state with documents := documents }

/-- `IntelligentRetriever._web_retrieve` node. -/
def web_retrieve (cfg : RetrievalConfig) (env : Env) (state : RetrieverState) :
    Except RunErr RetrieverState := do
  let documents ← web_get_relevant_documents cfg env state.query
  .ok { state with documents := documents }

/-- `IntelligentRetriever._combine_results` node: the dual-retrieval
branch fires only when the search type stored in the state is the literal
string both; otherwise the documents already in the state pass through
unchanged. -/
def combine_results (cfg : RetrievalConfig) (env : Env) (state : RetrieverState) :
    Except RunErr RetrieverState :=
  if state.search_type = "both" then do
    let custom_docs ← custom_get_relevant_documents cfg env state.query
    let web_docs ← web_get_relevant_documents cfg env state.query
    .ok { state with documents := (custom_docs ++ web_docs).take cfg.max_docs }
  else .ok { state with documents := state.documents }

/-- `IntelligentRetriever._update_session_memory` node: build the
response data from the final state and call `add_message`. The Redis
write is not wrapped in any handler, so a store failure propagates. -/
def update_session_memory (cfg : RetrievalConfig) (env : Env) (mem : SessionStore)
    (state : RetrieverState) : Except RunErr (RetrieverState × SessionStore) :=
  let response_data : ResponseData :=
    { strategy_used := state.search_type
      document_count := state.documents.length
      reasoning := state.reasoning
      documents := state.documents }
  if !env.writeOk then .error .storeError
  else
    .ok (state,
      add_message mem cfg.max_session_messages env.now state.user_id state.query
        response_data)

/-- Conditional-edge dispatch out of the analyze node followed by the
path to the combine node: the single retrieval node when one backend is
routed, the direct edge to combine on the dual path, and an exception for
a strategy outside the edge map. -/
def routed_stage (cfg : RetrievalConfig) (env : Env) (s1 : RetrieverState) :
    Except RunErr RetrieverState :=
  if route_decision s1 = "custom" then do
    let sa ← custom_retrieve cfg env s1
    combine_results cfg env sa
  else if route_decision s1 = "web" then do
    let sa ← web_retrieve cfg env s1
    combine_results cfg env sa
  else if route_decision s1 = "both" then
    combine_results cfg env s1
  else .error .routeError

/-- One run of the compiled LangGraph workflow: entry node
`analyze_context`, the routed retrieval stage ending at `combine`, then
`update_memory`. -/
def run_graph (cfg : RetrievalConfig) (env : Env) (mem : SessionStore)
    (state : RetrieverState) : Except RunErr (RetrieverState × SessionStore) := do
  let s1 ← analyze_with_context env mem state
  let s2 ← routed_stage cfg env s1
  update_session_memory cfg env mem s2

/-- Payload returned by `IntelligentRetriever.retrieve`. -/
structure RetrievalResult where
  query : String
  user_id : String
  documents : List Document
  strategy_used : String
  confidence : ℚ
  reasoning : String
  context_used : Bool
  document_count : Nat
  conversation_length : Nat
  deriving Repr, DecidableEq

/-- `IntelligentRetriever.retrieve`. The user id defaults to the string
default_user at the Python call site; here it is always explicit. The
call performs no validation of the query or user id before invoking the
graph on the initial state. -/
def retrieve (cfg : RetrievalConfig) (env : Env) (mem : SessionStore)
    (query user_id : String) : Except RunErr (RetrievalResult × SessionStore) := do
  let (final_state, mem2) ← run_graph cfg env mem
    { query := query
      user_id := user_id
      documents := []
      search_type := ""
      confidence := 0
      reasoning := ""
      context_used := false
      conversation_history := [] }
  .ok ({ query := query
         user_id := user_id
         documents := final_state.documents
         strategy_used := final_state.search_type
         confidence := final_state.confidence
         reasoning := final_state.reasoning
         context_used := final_state.context_used
         document_count := final_state.documents.length
         conversation_length := final_state.conversation_history.length }, mem2)

/-- `IntelligentRetriever.clear_user_session`. -/
def clear_user_session (mem : SessionStore) (user_id : String) : SessionStore :=
  clear_session mem user_id

/-- `IntelligentRetriever.get_user_conversation`. -/
def get_user_conversation (mem : SessionStore) (user_id : String) : List TurnMsg :=
  get_conversation_context mem user_id

/-! Concrete test data used by witnesses and counterexamples. -/

def c8Response : ResponseData :=
  { strategy_used := "custom", document_count := 0, reasoning := "", documents := [] }

def c8Store : SessionStore :=
  add_message (add_message [] 0 "t1" "u" "q1" c8Response) 0 "t2" "u" "q2" c8Response

def c7Env : Env :=
  { llm := fun _ _ => .raises
    dbConnected := true
    embedOk := true
    dbQuery := .rows [⟨"alpha", [], "a.txt", q09⟩, ⟨"beta", [], "b.txt", q04⟩]
    web := .raises
    readOk := true
    writeOk := true
    now := "t" }

def c5Env : Env :=
  { llm := fun _ _ => .raises
    dbConnected := true
    embedOk := false
    dbQuery := .rows []
    web := .raises
    readOk := true
    writeOk := true
    now := "t" }

def c5aEnv : Env :=
  { llm := fun _ _ => .raises
    dbConnected := false
    embedOk := true
    dbQuery := .rows []
    web := .raises
    readOk := true
    writeOk := true
    now := "t" }

def c5bEnv : Env :=
  { llm := fun _ _ => .raises
    dbConnected := true
    embedOk := true
    dbQuery := .queryError
    web := .raises
    readOk := true
    writeOk := true
    now := "t" }


def c1Rows : List Row :=
  [⟨"d1", [], "a.txt", q09⟩, ⟨"d2", [], "b.txt", q09⟩, ⟨"d3", [], "c.txt", q09⟩]

def c1Env : Env :=
  { llm := fun _ _ => .decision "custom" q04 "seems internal" (some false)
    dbConnected := true
    embedOk := true
    dbQuery := .rows c1Rows
    web := .result "w1\n\nw2"
    readOk := true
    writeOk := true
    now := "t" }

def c2Env : Env :=
  { llm := fun _ _ => .raises
    dbConnected := true
    embedOk := true
    dbQuery := .rows []
    web := .result "w"
    readOk := true
    writeOk := true
    now := "t" }

def c2wEnv : Env :=
  { llm := fun _ _ => .invalidJson
    dbConnected := true
    embedOk := true
    dbQuery := .rows []
    web := .result "w"
    readOk := true
    writeOk := true
    now := "t" }

def c3Env : Env :=
  { llm := fun _ _ => .decision "web" q09 "needs web" (some true)
    dbConnected := true
    embedOk := true
    dbQuery := .rows []
    web := .result "w1\n\nw2"
    readOk := true
    writeOk := false
    now := "t" }

def c3Result : RetrievalResult :=
  { query := "q"
    user_id := "u"
    documents := []
    strategy_used := "web"
    confidence := q09
    reasoning := "needs web"
    context_used := true
    document_count := 0
    conversation_length := 0 }

def c4Cfg : RetrievalConfig :=
  { max_docs := 1, web_search_max_results := 3 }

def c4Env : Env :=
  { llm := fun _ _ => .decision "web" q09 "current events" (some false)
    dbConnected := true
    embedOk := true
    dbQuery := .rows []
    web := .result "w1\n\nw2\n\nw3"
    readOk := true
    writeOk := true
    now := "t" }

def c4wEnv : Env :=
  { llm := fun _ _ => .decision "web" q09 "current events" (some false)
    dbConnected := true
    embedOk := true
    dbQuery := .rows []
    web := .result "w1\n\nw2"
    readOk := true
    writeOk := true
    now := "t" }

def c4wResult : RetrievalResult :=
  { query := "q"
    user_id := "u"
    documents :=
      [⟨"w1", [("source", .str "web_search"), ("rank", .nat 1), ("query", .str "q")]⟩,
       ⟨"w2", [("source", .str "web_search"), ("rank", .nat 2), ("query", .str "q")]⟩]
    strategy_used := "web"
    confidence := q09
    reasoning := "current events"
    context_used := false
    document_count := 2
    conversation_length := 0 }

def c4wStore : SessionStore :=
  add_message [] 10 "t" "u" "q"
    { strategy_used := "web"
      document_count := 2
      reasoning := "current events"
      documents := c4wResult.documents }

def c6Env : Env :=
  { llm := fun _ _ => .decision "web" q09 "generic" (some false)
    dbConnected := true
    embedOk := true
    dbQuery := .rows []
    web := .result "w1"
    readOk := true
    writeOk := true
    now := "t" }

def c6wEnv : Env :=
  { llm := fun _ _ => .invalidJson
    dbConnected := true
    embedOk := true
    dbQuery := .rows []
    web := .result "w"
    readOk := true
    writeOk := true
    now := "t" }

def c10Msg1 : TurnMsg :=
  { timestamp := "t1"
    query := "first"
    strategy_used := "web"
    document_count := 1
    reasoning := "r1"
    key_points := [] }

def c10Msg2 : TurnMsg :=
  { timestamp := "t2"
    query := "second"
    strategy_used := "custom"
    document_count := 2
    reasoning := "r2"
    key_points := [] }

def c10Store : SessionStore := [("session:u", [c10Msg1, c10Msg2])]

def c10Env : Env :=
  { llm := fun _ _ => .invalidJson
    dbConnected := true
    embedOk := true
    dbQuery := .rows []
    web := .result "w"
    readOk := true
    writeOk := true
    now := "t" }

theorem store_lookup_set_self (mem : SessionStore) (key : String) (v : List TurnMsg) :
    store_lookup (store_set mem key v) key = v := by
  simp [store_lookup, store_set, List.find?_cons]

theorem find_filter_out (mem : SessionStore) (key : String) :
    (mem.filter (fun p => !(p.1 == key))).find? (fun p => p.1 == key) = none := by
  induction mem with
  | nil => rfl
  | cons a t ih =>
    by_cases h : a.1 == key
    · simp [List.filter_cons, h, ih]
    · simp [List.filter_cons, h, List.find?_cons, ih]

/-- C9: after clearing a user's session the history read returns the
empty sequence, and clearing twice leaves the store identical to clearing
once, so the observable state is the same (empty history both times). -/
theorem clear_session_empties_history_and_idempotent (mem : SessionStore) (uid : String) :
    get_conversation_context (clear_session mem uid) uid = [] ∧
    clear_session (clear_session mem uid) uid = clear_session mem uid := by
  constructor
  · unfold get_conversation_context store_lookup clear_session
    rw [find_filter_out]
    rfl
  · simp [clear_session, List.filter_filter]

/-- C8 amended: an append followed immediately by a history read for the
same user yields the appended query text at the head, for every value of
max_messages; and whenever max_messages is at least 1, the history length
after an append is bounded by max_messages. -/
theorem add_message_head_and_bound (mem : SessionStore) (max_messages : Nat)
    (now uid q : String) (response : ResponseData) :
    ((get_conversation_context (add_message mem max_messages now uid q response)
        uid).head?.map TurnMsg.query = some q) ∧
    (1 ≤ max_messages →
      (get_conversation_context (add_message mem max_messages now uid q response)
          uid).length ≤ max_messages) := by
  constructor
  · unfold get_conversation_context add_message
    rw [store_lookup_set_self]
    unfold ltrim_front
    by_cases h : max_messages = 0
    · simp [h]
    · rw [if_neg h]
      cases max_messages with
      | zero => exact absurd rfl h
      | succ n => simp [List.take_succ_cons]
  · intro h
    unfold get_conversation_context add_message
    rw [store_lookup_set_self]
    unfold ltrim_front
    rw [if_neg (by omega)]
    exact le_trans (List.length_take _ _ ▸ min_le_left _ _) le_rfl

/-- C8 counterexample: with max_session_messages = 0 the Redis trim call
LTRIM key 0 -1 keeps the entire list, so two appends leave a history of
length 2, exceeding the configured maximum of 0. -/
theorem add_message_bound_fails_at_zero :
    ¬ (get_conversation_context c8Store "u").length ≤ 0 := by decide

/-- Witness for the amended C8 theorem at a concrete input. -/
theorem add_message_head_and_bound_witness :
    ((get_conversation_context (add_message [] 10 "t" "u" "hello" c8Response)
        "u").head?.map TurnMsg.query = some "hello") ∧
    (get_conversation_context (add_message [] 10 "t" "u" "hello" c8Response)
        "u").length ≤ 10 :=
  ⟨(add_message_head_and_bound [] 10 "t" "u" "hello" c8Response).1,
   (add_message_head_and_bound [] 10 "t" "u" "hello" c8Response).2 (by decide)⟩

/-- C7: every document returned by the indexed backend's search carries a
similarity score at least the configured threshold; documents scoring
strictly below the threshold are excluded before the result is
returned. -/
theorem custom_documents_meet_threshold (cfg : RetrievalConfig) (env : Env)
    (query : String) (docs : List Document)
    (h : custom_get_relevant_documents cfg env query = .ok docs) :
    ∀ d ∈ docs, cfg.similarity_threshold ≤ simOf d := by
  intro d hd
  unfold custom_get_relevant_documents at h
  by_cases hc : env.dbConnected
  · by_cases he : env.embedOk
    · simp [hc, he] at h
      subst h
      exact of_decide_eq_true (List.mem_filter.mp hd).2
    · simp [hc, he] at h
  · simp [hc] at h
    subst h
    cases hd

/-- Witness for the C7 theorem: at the concrete environment the backend
returns exactly the high-scoring document, and its score meets the
default threshold. -/
theorem custom_documents_meet_threshold_witness :
    ({} : RetrievalConfig).similarity_threshold ≤
      simOf (rowToDocument ⟨"alpha", [], "a.txt", q09⟩) :=
  custom_documents_meet_threshold {} c7Env "q"
    [rowToDocument ⟨"alpha", [], "a.txt", q09⟩] (by rfl)
    (rowToDocument ⟨"alpha", [], "a.txt", q09⟩) (by simp)

/-- C5 amended: faults inside the vector-store search path (missing
connection, query error, empty result set) yield an empty sequence from
the indexed backend, and every web tool fault yields an empty sequence
from the web backend; an embedding-provider failure inside the indexed
backend, however, is not caught and propagates (see the counterexample
theorem). -/
theorem backend_faults_yield_empty (cfg : RetrievalConfig) (env : Env) (query : String) :
    (env.dbConnected = false → custom_get_relevant_documents cfg env query = .ok []) ∧
    (env.embedOk = true → env.dbQuery = .queryError →
      custom_get_relevant_documents cfg env query = .ok []) ∧
    (env.embedOk = true → env.dbQuery = .rows [] →
      custom_get_relevant_documents cfg env query = .ok []) ∧
    (env.web = .raises → web_get_relevant_documents cfg env query = .ok []) := by
  refine ⟨fun h => ?_, fun he hq => ?_, fun he hq => ?_, fun hw => ?_⟩
  · simp [custom_get_relevant_documents, h]
  · by_cases hc : env.dbConnected
    · simp [custom_get_relevant_documents, similarity_search, hc, he, hq]
    · simp [custom_get_relevant_documents, hc]
  · by_cases hc : env.dbConnected
    · simp [custom_get_relevant_documents, similarity_search, hc, he, hq]
    · simp [custom_get_relevant_documents, hc]
  · simp [web_get_relevant_documents, hw]

/-- C5 counterexample: with the vector store connected but the embedding
provider failing, the indexed backend's search raises instead of
returning an empty sequence, so a provider fault does propagate. -/
theorem custom_embed_fault_propagates :
    custom_get_relevant_documents {} c5Env "q" = .error .embedError := by rfl

/-- Witness for the amended C5 theorem at concrete fault environments. -/
theorem backend_faults_yield_empty_witness :
    custom_get_relevant_documents {} c5aEnv "q" = .ok [] ∧
    custom_get_relevant_documents {} c5bEnv "q" = .ok [] ∧
    web_get_relevant_documents {} c5bEnv "q" = .ok [] :=
  ⟨(backend_faults_yield_empty {} c5aEnv "q").1 rfl,
   (backend_faults_yield_empty {} c5bEnv "q").2.1 rfl rfl,
   (backend_faults_yield_empty {} c5bEnv "q").2.2.2 rfl⟩

theorem except_bind_ok {α β : Type} {x : Except RunErr α} {f : α → Except RunErr β}
    {b : β} (h : x >>= f = .ok b) : ∃ a, x = .ok a ∧ f a = .ok b := by
  cases x with
  | error e => exact Except.noConfusion h
  | ok a => exact ⟨a, rfl, h⟩

theorem add_message_head (mem : SessionStore) (max_messages : Nat)
    (now uid q : String) (response : ResponseData) :
    (get_conversation_context (add_message mem max_messages now uid q response)
        uid).head?.map TurnMsg.query = some q := by
  unfold get_conversation_context add_message
  rw [store_lookup_set_self]
  unfold ltrim_front
  by_cases h : max_messages = 0
  · simp [h]
  · rw [if_neg h]
    cases max_messages with
    | zero => exact absurd rfl h
    | succ n => simp [List.take_succ_cons]

theorem analyze_invalidJson (env : Env) (mem : SessionStore) (s0 : RetrieverState)
    (hr : env.readOk = true)
    (hllm : env.llm s0.query
      (summarize_conversation (get_conversation_context mem s0.user_id)) = .invalidJson) :
    analyze_with_context env mem s0 =
      .ok { s0 with
        search_type := "custom", confidence := q05,
        reasoning := "Default fallback to custom search", context_used := false,
        conversation_history := [] } := by
  unfold analyze_with_context
  rw [hr]
  simp only [Bool.not_true, Bool.false_eq_true, if_false]
  rw [hllm]

theorem run_graph_fallback (cfg : RetrievalConfig) (env : Env) (mem : SessionStore)
    (s0 : RetrieverState) (hr : env.readOk = true) (hw : env.writeOk = true)
    (hllm : env.llm s0.query
      (summarize_conversation (get_conversation_context mem s0.user_id)) = .invalidJson) :
    run_graph cfg env mem s0 =
      .ok ({ s0 with
          search_type := "custom", confidence := q05,
          reasoning := "Default fallback to custom search", context_used := false,
          conversation_history := [] },
       add_message mem cfg.max_session_messages env.now s0.user_id s0.query
         { strategy_used := "custom"
           document_count := s0.documents.length
           reasoning := "Default fallback to custom search"
           documents := s0.documents }) := by
  have hq : q05 < q06 := by rw [q05_eq, q06_eq]; norm_num
  unfold run_graph routed_stage
  rw [analyze_invalidJson env mem s0 hr hllm]
  have hroute : route_decision
      { s0 with
        search_type := "custom", confidence := q05,
        reasoning := "Default fallback to custom search", context_used := false,
        conversation_history := [] } = "both" := by
    unfold route_decision
    exact if_pos hq
  simp only [Bind.bind, Except.bind, hroute]
  unfold combine_results update_session_memory
  simp only [hw]
  rfl

theorem retrieve_fallback (cfg : RetrievalConfig) (env : Env) (mem : SessionStore)
    (q uid : String) (hr : env.readOk = true) (hw : env.writeOk = true)
    (hllm : env.llm q
      (summarize_conversation (get_conversation_context mem uid)) = .invalidJson) :
    retrieve cfg env mem q uid =
      .ok ({ query := q
             user_id := uid
             documents := []
             strategy_used := "custom"
             confidence := q05
             reasoning := "Default fallback to custom search"
             context_used := false
             document_count := 0
             conversation_length := 0 },
           add_message mem cfg.max_session_messages env.now uid q
             { strategy_used := "custom"
               document_count := 0
               reasoning := "Default fallback to custom search"
               documents := [] }) := by
  unfold retrieve
  rw [run_graph_fallback cfg env mem _ hr hw hllm]
  rfl

/-- C1: evaluation at the failing input. The classifier returns strategy
custom with confidence 0.4 (below 0.6); the indexed backend would return
three documents and the web backend two, and the claim demands both be
invoked and their concatenation (3 then 2 documents) be returned. Instead
the run returns zero documents: the router does send the run to the
combine node, but combine keys its dual-retrieval branch on the state's
search type, which still holds the classified strategy custom rather than
the routed value both, so neither backend is invoked and the initial
empty document list passes through. -/
theorem low_confidence_run_returns_no_documents :
    (custom_get_relevant_documents {} c1Env "q").map List.length = .ok 3 ∧
    (web_get_relevant_documents {} c1Env "q").map List.length = .ok 2 ∧
    (retrieve {} c1Env [] "q" "u").map
      (fun p => (p.1.strategy_used, p.1.confidence, p.1.documents.length,
        p.1.document_count)) = .ok ("custom", q04, 0, 0) :=
  ⟨rfl, rfl, rfl⟩

/-- C2 counterexample: when the classifier's underlying reasoning call
throws, the exception propagates out of retrieve — no fallback decision
is used and the turn is neither completed nor recorded. -/
theorem classifier_raise_aborts_turn :
    retrieve {} c2Env [] "q" "u" = .error .llmRaised := by rfl

/-- C2 amended: when the classifier's raw output fails JSON parsing, the
run uses the fallback decision with strategy custom (Indexed), confidence
0.5, reasoning the string Default fallback to custom search, context_used
false, and the turn completes and is recorded at the head of the user's
session history. A throwing reasoning call, or a decision missing a
required key, instead propagates as an exception. -/
theorem invalid_json_uses_fallback_and_records (cfg : RetrievalConfig) (env : Env)
    (mem : SessionStore) (q uid : String)
    (hr : env.readOk = true) (hw : env.writeOk = true)
    (hllm : env.llm q
      (summarize_conversation (get_conversation_context mem uid)) = .invalidJson) :
    (retrieve cfg env mem q uid).map
      (fun p => (p.1.strategy_used, p.1.confidence, p.1.reasoning, p.1.context_used,
        (get_conversation_context p.2 uid).head?.map TurnMsg.query)) =
      .ok ("custom", 1/2, "Default fallback to custom search", false, some q) := by
  rw [retrieve_fallback cfg env mem q uid hr hw hllm]
  simp [Except.map, add_message_head, q05_eq]

/-- Witness for the amended C2 theorem at a concrete environment. -/
theorem invalid_json_uses_fallback_and_records_witness :
    (retrieve {} c2wEnv [] "hi" "u").map
      (fun p => (p.1.strategy_used, p.1.confidence, p.1.reasoning, p.1.context_used,
        (get_conversation_context p.2 "u").head?.map TurnMsg.query)) =
      .ok ("custom", 1/2, "Default fallback to custom search", false, some "hi") :=
  invalid_json_uses_fallback_and_records {} c2wEnv [] "hi" "u" rfl rfl rfl

theorem run_graph_write_fail (cfg : RetrievalConfig) (env : Env) (mem : SessionStore)
    (s0 : RetrieverState) (hw : env.writeOk = false)
    (p : RetrieverState × SessionStore) : run_graph cfg env mem s0 ≠ .ok p := by
  intro h
  unfold run_graph at h
  obtain ⟨s1, h1, h2⟩ := except_bind_ok h
  obtain ⟨s2, h3, h4⟩ := except_bind_ok h2
  unfold update_session_memory at h4
  rw [hw] at h4
  exact Except.noConfusion h4

/-- C3 amended: when the session store write fails during the update
memory step, the failure is not caught — retrieve never returns a
result for any query, user, or prior store contents. -/
theorem store_write_failure_propagates (cfg : RetrievalConfig) (env : Env)
    (mem : SessionStore) (q uid : String) (hw : env.writeOk = false)
    (out : RetrievalResult × SessionStore) : retrieve cfg env mem q uid ≠ .ok out := by
  intro h
  unfold retrieve at h
  obtain ⟨p, hp, hrest⟩ := except_bind_ok h
  exact run_graph_write_fail cfg env mem _ hw p hp

/-- C3 counterexample: the session store is reachable for the history
read but down for the write; the whole retrieval pipeline succeeds, yet
retrieve aborts with the store error instead of returning a result. -/
theorem store_write_failure_counterexample :
    retrieve {} c3Env [] "q" "u" = .error .storeError := by rfl

/-- Witness for the amended C3 theorem at a concrete input. -/
theorem store_write_failure_propagates_witness :
    retrieve {} c3Env [] "q" "u" ≠ .ok (c3Result, []) :=
  store_write_failure_propagates {} c3Env [] "q" "u" rfl (c3Result, [])

/-- C6 counterexample: a call with an empty query is not rejected — the
full state machine runs: the classifier decision is consumed (strategy
web), the web backend is invoked and returns one document, and a turn
record whose query text is the empty string is appended to the user's
session. -/
theorem empty_query_counterexample :
    (retrieve {} c6Env [] "" "u").map
      (fun p => (p.1.strategy_used, p.1.document_count,
        (get_conversation_context p.2 "u").head?.map TurnMsg.query)) =
      .ok ("web", 1, some "") := by rfl

/-- C6 amended: retrieve performs no input validation; an empty query
enters the state machine like any other query (shown here on the
fallback classification path), the run completes normally, and a turn
record whose query text is the empty string is written to the session. -/
theorem empty_query_enters_state_machine (cfg : RetrievalConfig) (env : Env)
    (mem : SessionStore) (uid : String) (hr : env.readOk = true)
    (hw : env.writeOk = true)
    (hllm : env.llm ""
      (summarize_conversation (get_conversation_context mem uid)) = .invalidJson) :
    (retrieve cfg env mem "" uid).map
      (fun p => (get_conversation_context p.2 uid).head?.map TurnMsg.query) =
      .ok (some "") := by
  rw [retrieve_fallback cfg env mem "" uid hr hw hllm]
  simp [Except.map, add_message_head]

/-- Witness for the amended C6 theorem at a concrete environment. -/
theorem empty_query_enters_state_machine_witness :
    (retrieve {} c6wEnv [] "" "u").map
      (fun p => (get_conversation_context p.2 "u").head?.map TurnMsg.query) =
      .ok (some "") :=
  empty_query_enters_state_machine {} c6wEnv [] "u" rfl rfl rfl

/-- C10: when the classifier output fails JSON parsing, the fallback
branch resets the state's conversation history to the empty list, so the
returned conversation_length is 0 — even when the user's stored history
is non-empty; the real history was still read and summarised into the
classifier prompt, which is the argument of the hllm hypothesis here. -/
theorem invalid_json_zeroes_conversation_length (cfg : RetrievalConfig) (env : Env)
    (mem : SessionStore) (q uid : String) (hr : env.readOk = true)
    (hw : env.writeOk = true)
    (hllm : env.llm q
      (summarize_conversation (get_conversation_context mem uid)) = .invalidJson) :
    (retrieve cfg env mem q uid).map (fun p => p.1.conversation_length) = .ok 0 := by
  rw [retrieve_fallback cfg env mem q uid hr hw hllm]
  rfl

/-- Witness for the C10 theorem: with two stored turns for the user, the
run still reports a conversation length of zero. -/
theorem invalid_json_zeroes_conversation_length_witness :
    (get_conversation_context c10Store "u").length = 2 ∧
    (retrieve {} c10Env c10Store "q" "u").map (fun p => p.1.conversation_length) =
      .ok 0 :=
  ⟨by rfl, invalid_json_zeroes_conversation_length {} c10Env c10Store "q" "u" rfl rfl rfl⟩

theorem similarity_search_length_le (c : Bool) (o : DbQueryOutcome) (k : Nat) :
    (similarity_search c o k).length ≤ k := by
  unfold similarity_search
  by_cases hc : c
  · simp only [hc, Bool.not_true, Bool.false_eq_true, if_false]
    cases o with
    | queryError => simp
    | rows rs => simpa using List.length_take_le k rs
  · rw [Bool.not_eq_true] at hc
    simp [hc]

theorem custom_docs_length_le (cfg : RetrievalConfig) (env : Env) (q : String)
    (docs : List Document) (h : custom_get_relevant_documents cfg env q = .ok docs) :
    docs.length ≤ cfg.max_docs := by
  unfold custom_get_relevant_documents at h
  by_cases hc : env.dbConnected
  · by_cases he : env.embedOk
    · simp only [hc, he, Bool.not_true, Bool.false_eq_true, if_false] at h
      injection h with h
      subst h
      exact le_trans (List.length_filter_le _ _) (similarity_search_length_le _ _ _)
    · rw [Bool.not_eq_true] at he
      simp [hc, he] at h
  · rw [Bool.not_eq_true] at hc
    simp only [hc, Bool.not_false, if_true] at h
    injection h with h
    subst h
    simp

theorem web_docs_length_le (cfg : RetrievalConfig) (env : Env) (q : String)
    (docs : List Document) (h : web_get_relevant_documents cfg env q = .ok docs) :
    docs.length ≤ cfg.web_search_max_results := by
  unfold web_get_relevant_documents at h
  split at h
  · injection h with h
    subst h
    simp
  · split at h
    · injection h with h
      subst h
      simp
    · injection h with h
      subst h
      refine le_trans (List.length_filterMap_le _ _) ?_
      rw [List.enum_length]
      exact List.length_take_le _ _

theorem combine_results_cases (cfg : RetrievalConfig) (env : Env)
    (s s' : RetrieverState) (h : combine_results cfg env s = .ok s') :
    s'.documents.length ≤ cfg.max_docs ∨ s'.documents = s.documents := by
  unfold combine_results at h
  by_cases hb : s.search_type = "both"
  · left
    rw [if_pos hb] at h
    obtain ⟨cd, hcd, h2⟩ := except_bind_ok h
    obtain ⟨wd, hwd, h3⟩ := except_bind_ok h2
    injection h3 with h3
    subst h3
    simpa using List.length_take_le _ _
  · right
    rw [if_neg hb] at h
    injection h with h
    subst h
    rfl

theorem custom_retrieve_ok (cfg : RetrievalConfig) (env : Env) (s s' : RetrieverState)
    (h : custom_retrieve cfg env s = .ok s') :
    ∃ docs, custom_get_relevant_documents cfg env s.query = .ok docs ∧
      s' = { s with documents := docs } := by
  unfold custom_retrieve at h
  obtain ⟨docs, h1, h2⟩ := except_bind_ok h
  injection h2 with h2
  exact ⟨docs, h1, h2.symm⟩

theorem web_retrieve_ok (cfg : RetrievalConfig) (env : Env) (s s' : RetrieverState)
    (h : web_retrieve cfg env s = .ok s') :
    ∃ docs, web_get_relevant_documents cfg env s.query = .ok docs ∧
      s' = { s with documents := docs } := by
  unfold web_retrieve at h
  obtain ⟨docs, h1, h2⟩ := except_bind_ok h
  injection h2 with h2
  exact ⟨docs, h1, h2.symm⟩

theorem analyze_ok_documents (env : Env) (mem : SessionStore) (s s1 : RetrieverState)
    (h : analyze_with_context env mem s = .ok s1) : s1.documents = s.documents := by
  unfold analyze_with_context at h
  by_cases hr : env.readOk
  · rw [hr] at h
    simp only [Bool.not_true, Bool.false_eq_true, if_false] at h
    cases hm : env.llm s.query
        (summarize_conversation (get_conversation_context mem s.user_id)) with
    | raises =>
      rw [hm] at h
      exact Except.noConfusion h
    | invalidJson =>
      rw [hm] at h
      injection h with h
      subst h
      rfl
    | jsonMissingKey =>
      rw [hm] at h
      exact Except.noConfusion h
    | decision st conf reasoning cu =>
      rw [hm] at h
      injection h with h
      subst h
      rfl
  · rw [Bool.not_eq_true] at hr
    rw [hr] at h
    exact Except.noConfusion h

theorem update_ok_fst (cfg : RetrievalConfig) (env : Env) (mem : SessionStore)
    (s : RetrieverState) (p : RetrieverState × SessionStore)
    (h : update_session_memory cfg env mem s = .ok p) : p.1 = s := by
  unfold update_session_memory at h
  by_cases hw : env.writeOk
  · rw [hw] at h
    injection h with h
    rw [← h]
  · rw [Bool.not_eq_true] at hw
    rw [hw] at h
    exact Except.noConfusion h

/-- C4 amended: for every successful run, the result's document_count
equals the length of its documents; that length is bounded by max_docs on
the indexed-only and dual paths, and by web_search_max_results on the
web-only path, hence by max_docs whenever web_search_max_results does not
exceed max_docs (as in the default configuration). A configuration with
web_search_max_results above max_docs can exceed max_docs on the web-only
path, which is the counterexample to the unconditional bound. -/
theorem result_count_eq_and_bounded (cfg : RetrievalConfig) (env : Env)
    (mem : SessionStore) (q uid : String) (r : RetrievalResult) (mem2 : SessionStore)
    (h : retrieve cfg env mem q uid = .ok (r, mem2)) :
    r.document_count = r.documents.length ∧
    (cfg.web_search_max_results ≤ cfg.max_docs →
      r.documents.length ≤ cfg.max_docs) := by
  unfold retrieve at h
  obtain ⟨p, hrun, hmk⟩ := except_bind_ok h
  obtain ⟨sf, m2⟩ := p
  injection hmk with hmk
  injection hmk with hr1 hr2
  subst hr1
  refine ⟨rfl, fun hwm => ?_⟩
  show sf.documents.length ≤ cfg.max_docs
  unfold run_graph at hrun
  obtain ⟨s1, h1, hrest⟩ := except_bind_ok hrun
  obtain ⟨s2, hmid, hupd⟩ := except_bind_ok hrest
  have hsf : sf = s2 := by
    have hu := update_ok_fst cfg env mem s2 (sf, m2) hupd
    simpa using hu
  subst hsf
  have hdoc1 : s1.documents = [] := by
    have hf := analyze_ok_documents env mem _ s1 h1
    simpa using hf
  unfold routed_stage at hmid
  by_cases hc : route_decision s1 = "custom"
  · rw [if_pos hc] at hmid
    obtain ⟨sa, hsa, hcomb⟩ := except_bind_ok hmid
    obtain ⟨docs, hdocs, hsaEq⟩ := custom_retrieve_ok cfg env s1 sa hsa
    rcases combine_results_cases cfg env sa sf hcomb with hb | hpass
    · exact hb
    · rw [hpass, hsaEq]
      simpa using custom_docs_length_le cfg env _ docs hdocs
  · rw [if_neg hc] at hmid
    by_cases hwb : route_decision s1 = "web"
    · rw [if_pos hwb] at hmid
      obtain ⟨sa, hsa, hcomb⟩ := except_bind_ok hmid
      obtain ⟨docs, hdocs, hsaEq⟩ := web_retrieve_ok cfg env s1 sa hsa
      rcases combine_results_cases cfg env sa sf hcomb with hb | hpass
      · exact hb
      · rw [hpass, hsaEq]
        simpa using le_trans (web_docs_length_le cfg env _ docs hdocs) hwm
    · rw [if_neg hwb] at hmid
      by_cases hbo : route_decision s1 = "both"
      · rw [if_pos hbo] at hmid
        rcases combine_results_cases cfg env s1 sf hmid with hb | hpass
        · exact hb
        · rw [hpass, hdoc1]
          simp
      · rw [if_neg hbo] at hmid
        exact Except.noConfusion hmid

/-- C4 counterexample: with max_docs = 1 and web_search_max_results = 3
the web-only path passes its three documents through uncapped, so the
result's document count is 3 and exceeds max_docs = 1. -/
theorem document_count_exceeds_max_docs :
    (retrieve c4Cfg c4Env [] "q" "u").map (fun p => p.1.document_count) = .ok 3 ∧
    c4Cfg.max_docs = 1 :=
  ⟨rfl, rfl⟩

/-- Witness for the amended C4 theorem at a concrete successful run. -/
theorem result_count_eq_and_bounded_witness :
    c4wResult.document_count = c4wResult.documents.length ∧
    c4wResult.documents.length ≤ ({} : RetrievalConfig).max_docs :=
  ⟨(result_count_eq_and_bounded {} c4wEnv [] "q" "u" c4wResult c4wStore (by rfl)).1,
   (result_count_eq_and_bounded {} c4wEnv [] "q" "u" c4wResult c4wStore (by rfl)).2
     (by decide)⟩
